import Mathlib

/-!
Shallow embedding of the Voise Asterisk speech-recognition module
(`res_speech_voise.c`): detection state, the per-frame recognition step
(`voise_write`), attempt start (`voise_start`), runtime attribute changes
(`voise_change`), the result builder (`__voise_set_result`), and the
string setters and getters.  External effects — the DSP silence
classification, wall-clock time, and the remote client calls — enter as
explicit parameters; log output is not modelled.
-/

namespace Voise

/-- Onset-confirmation threshold, `VOISE_NOISE_FRAMES` in the source. -/
def VOISE_NOISE_FRAMES : Int := 1

/-- Maximum number of n-best hypotheses, `VOISE_MAX_NBEST` in the source. -/
def VOISE_MAX_NBEST : Nat := 1

/-- Asterisk generic speech states touched by the module
(`AST_SPEECH_STATE_NOT_READY`, `READY`, `WAIT`, `DONE`). -/
inductive AstSpeechState where
  | notReady
  | ready
  | wait
  | done
deriving DecidableEq, Repr

/-- The fields of `struct voise_speech_info`.  The three `char` buffers are
modelled as byte lists (`lang[10]`, `asr_engine[10]`, `model_name[1000]`);
`heardspeech` is an `int` used as a flag, modelled as `Bool`; `start_time`
is a `time_t`, modelled as `Int` seconds. -/
structure VoiseInfo where
  verbose : Int
  lang : List Nat
  asr_engine : List Nat
  model_name : List Nat
  initsil : Int
  maxsil : Int
  abs_timeout : Int
  heardspeech : Bool
  noiseframes : Int
  start_time : Int
deriving DecidableEq, Repr

/-- Which branch of the `voise_write` if/else-if chain handled the frame. -/
inductive WriteAction where
  | onset
  | finalizeInitSilence
  | finalizeMaxSilence
  | finalizeAbsTimeout
  | silenceReset
  | passthrough
deriving DecidableEq, Repr

/-- Whether a `voise_write` branch is one of the three finalize branches
(each calls `voise_stop_streaming_recognize` and returns without pushing). -/
def isFinalizeAction : WriteAction → Bool
  | .finalizeInitSilence => true
  | .finalizeMaxSilence => true
  | .finalizeAbsTimeout => true
  | _ => false

/-- Outcome of one `voise_write` call: the updated detection state, the
branch taken, whether `voise_data_streaming_recognize` was invoked on the
frame, the C return value, and the speech-state change performed, if any. -/
structure WriteResult where
  info : VoiseInfo
  action : WriteAction
  pushed : Bool
  retval : Int
  state : Option AstSpeechState
deriving DecidableEq, Repr

/-- The tail of each finalize branch: `voise_stop_streaming_recognize`
either fails (log, state `NOT_READY`, return `-1`) or succeeds, after which
`__voise_set_result` runs and leaves the speech state at `DONE`, and the
branch returns `0` without pushing the frame. -/
def finalizeOutcome (info : VoiseInfo) (a : WriteAction) (stopOk : Bool) :
    WriteResult :=
  if stopOk then
    { info := info, action := a, pushed := false, retval := 0,
      state := some .done }
  else
    { info := info, action := a, pushed := false, retval := -1,
      state := some .notReady }

/-- The shared tail of `voise_write` after the if/else-if chain:
`voise_data_streaming_recognize` is invoked on the frame; on failure the
state is set to `NOT_READY` and `-1` returned, otherwise `0`. -/
def pushOutcome (info : VoiseInfo) (a : WriteAction) (pushOk : Bool) :
    WriteResult :=
  if pushOk then
    { info := info, action := a, pushed := true, retval := 0, state := none }
  else
    { info := info, action := a, pushed := true, retval := -1,
      state := some .notReady }

/-- `voise_write`, the per-frame step.  `silence` and `totalsil` are the
outputs of `ast_dsp_silence` on the frame, `current_time` the wall clock;
`stopOk` and `pushOk` stand for the success of the remote stop and push
calls.  The branch structure mirrors the source if/else-if chain at
`res_speech_voise.c:765-862`. -/
def voise_write (info : VoiseInfo) (silence : Bool) (totalsil : Int)
    (current_time : Int) (stopOk pushOk : Bool) : WriteResult :=
  if info.heardspeech = false ∧ silence = false then
    let nf := info.noiseframes + 1
    let info' :=
      if VOISE_NOISE_FRAMES < nf then
        { info with heardspeech := true, noiseframes := 0 }
      else
        { info with noiseframes := nf }
    pushOutcome info' .onset pushOk
  else if info.heardspeech = false ∧ silence = true ∧
      0 ≤ info.initsil ∧ info.initsil ≤ totalsil then
    finalizeOutcome info .finalizeInitSilence stopOk
  else if info.heardspeech = true ∧ silence = true ∧
      0 ≤ info.maxsil ∧ info.maxsil ≤ totalsil then
    finalizeOutcome info .finalizeMaxSilence stopOk
  else if 0 < info.abs_timeout ∧
      info.abs_timeout ≤ current_time - info.start_time then
    finalizeOutcome info .finalizeAbsTimeout stopOk
  else if silence = true then
    pushOutcome { info with noiseframes := 0 } .silenceReset pushOk
  else
    pushOutcome info .passthrough pushOk

/-- `__reinit_speech_controls` on a non-null `voise_info`: clears the
detection fields (the DSP replacement itself is modelled by the `dspOk`
parameter of `voise_start`). -/
def reinit_speech_controls (info : VoiseInfo) : VoiseInfo :=
  { info with heardspeech := false, noiseframes := 0, start_time := 0 }

/-- Outcome of one `voise_start` call: the resulting `voise_speech_info`
fields, the C return value, whether `voise_start_streaming_recognize` was
invoked (a new remote streaming session attempted), and the speech-state
change performed, if any. -/
structure StartResult where
  info : VoiseInfo
  retval : Int
  opened : Bool
  state : Option AstSpeechState
deriving DecidableEq, Repr

/-- `voise_start` (`res_speech_voise.c:876-927`).  `curState` is the
speech state at call time — the source never reads it, which the model
makes explicit by taking and ignoring it; `dspOk` is the success of the
DSP allocation inside `__reinit_speech_controls`, `openRet` the return
value of `voise_start_streaming_recognize`, `result_code` the remote
response code, and `now` the wall clock stored into `start_time`. -/
def voise_start (curState : AstSpeechState) (info : VoiseInfo)
    (dspOk : Bool) (openRet : Int) (result_code : Int) (now : Int) :
    StartResult :=
  let info1 := reinit_speech_controls info
  if dspOk = false then
    { info := info1, retval := -1, opened := false, state := none }
  else if openRet < 0 then
    { info := info1, retval := -1, opened := true, state := none }
  else if result_code ≠ 201 then
    { info := info1, retval := -1, opened := true, state := none }
  else
    { info := { info1 with start_time := now }, retval := 0, opened := true,
      state := some .ready }

/-- The fields of a `voise_response_t` consumed by this module:
`result_code` and the recognition payload (`utterance`, `intent`,
`confidence`, `probability`).  The two C floating-point fields are
modelled as rationals. -/
structure VoiseResponse where
  result_code : Int
  utterance : String
  intent : String
  confidence : ℚ
  probability : ℚ
deriving DecidableEq, Repr

/-- One node of the `ast_speech_result` linked list built by
`__voise_set_result`.  `text` and `grammar` are `NULL`-able C strings,
hence `Option`. -/
structure SpeechResult where
  score : Int
  text : Option String
  grammar : Option String
deriving DecidableEq, Repr

/-- A freshly `ast_calloc`-ed (zeroed) `ast_speech_result` node. -/
def emptyResult : SpeechResult :=
  { score := 0, text := none, grammar := none }

/-- The C cast `(int)q` on a floating-point value: truncation toward
zero. -/
def ratTruncToZero (q : ℚ) : Int :=
  if 0 ≤ q then ⌊q⌋ else ⌈q⌉

/-- The node contents written by one iteration of the
`__voise_set_result` loop: `score = (int)(confidence * probability * 100)`
and `text`/`grammar` duplicated verbatim from the response. -/
def filledResult (resp : VoiseResponse) : SpeechResult :=
  { score := ratTruncToZero (resp.confidence * resp.probability * 100),
    text := some resp.utterance,
    grammar := some resp.intent }

/-- The `for (ibest = 0; ibest < VOISE_MAX_NBEST; ++ibest)` loop of
`__voise_set_result`, acting on the current (zero-initialised) node with
`n` iterations remaining.  Each iteration overwrites the current node;
with n-best off, the loop breaks after the first fill, otherwise a fresh
zeroed node is `ast_calloc`-ed, linked, and becomes current — so when the
iteration budget runs out the last linked node is left zeroed. -/
def nbestLoop (resp : VoiseResponse) (type_nbest : Bool) : Nat → List SpeechResult
  | 0 => [emptyResult]
  | Nat.succ m =>
    if type_nbest = false then
      [filledResult resp]
    else
      filledResult resp :: nbestLoop resp type_nbest m

/-- `__voise_set_result` (`res_speech_voise.c:496-543`) on a speech
object with no prior results: the hypothesis list it leaves in
`speech->results`.  `type_nbest` records whether the caller requested
`AST_SPEECH_RESULTS_TYPE_NBEST`. -/
def voise_set_result (resp : VoiseResponse) (type_nbest : Bool) :
    List SpeechResult :=
  nbestLoop resp type_nbest VOISE_MAX_NBEST

/-- The byte sequence of a C string argument (no interior `NUL`). -/
def strBytes (s : String) : List Nat :=
  s.toList.map Char.toNat

/-- Effect on a `char` buffer of
`strncpy(dst, src, strlen(src)); dst[strlen(src)] = 0;` — the pattern used
by `__voise_set_lang`, `__voise_set_asr_engine` and `__voise_set_model`:
the source bytes land at offsets `0..len-1`, a `NUL` at offset `len`, and
the rest of the buffer is untouched. -/
def writeCStr (dst : List Nat) (s : List Nat) : List Nat :=
  s ++ 0 :: dst.drop (s.length + 1)

/-- Reading a `char` buffer back as a C string: the bytes before the
first `NUL`. -/
def cstrOf (l : List Nat) : List Nat :=
  l.takeWhile (fun b => b ≠ 0)

/-- `__voise_set_lang` on a non-null `speech`: `speech->data` may still be
null, in which case the setter logs and returns `-1` leaving the data
untouched. -/
def __voise_set_lang (data : Option VoiseInfo) (s : List Nat) :
    Option VoiseInfo × Int :=
  match data with
  | none => (none, -1)
  | some info => (some { info with lang := writeCStr info.lang s }, 0)

/-- `__voise_get_lang` on a non-null `speech`: the `lang` buffer read as
a C string, or `NULL` when `speech->data` is null. -/
def __voise_get_lang (data : Option VoiseInfo) : Option (List Nat) :=
  match data with
  | none => none
  | some info => some (cstrOf info.lang)

/-- `__voise_set_asr_engine` on a non-null `speech`. -/
def __voise_set_asr_engine (data : Option VoiseInfo) (s : List Nat) :
    Option VoiseInfo × Int :=
  match data with
  | none => (none, -1)
  | some info => (some { info with asr_engine := writeCStr info.asr_engine s }, 0)

/-- `__voise_get_asr_engine` on a non-null `speech`. -/
def __voise_get_asr_engine (data : Option VoiseInfo) : Option (List Nat) :=
  match data with
  | none => none
  | some info => some (cstrOf info.asr_engine)

/-- `__voise_set_model` on a non-null `speech`. -/
def __voise_set_model (data : Option VoiseInfo) (s : List Nat) :
    Option VoiseInfo × Int :=
  match data with
  | none => (none, -1)
  | some info => (some { info with model_name := writeCStr info.model_name s }, 0)

/-- `__voise_get_model` on a non-null `speech`. -/
def __voise_get_model (data : Option VoiseInfo) : Option (List Nat) :=
  match data with
  | none => none
  | some info => some (cstrOf info.model_name)

/-- The digit-accumulation loop of C `atoi`. -/
def atoiDigits : List Char → Int → Int
  | [], acc => acc
  | c :: cs, acc =>
    if c.isDigit then atoiDigits cs (acc * 10 + ((c.toNat : Int) - 48))
    else acc

/-- C `atoi`: skip leading whitespace, an optional sign, then decimal
digits up to the first non-digit (overflow aside). -/
def atoi (s : String) : Int :=
  let cs := s.toList.dropWhile (fun c => c = ' ' ∨ c = '\t' ∨ c = '\n' ∨
    c = '\r')
  match cs with
  | '-' :: rest => - atoiDigits rest 0
  | '+' :: rest => atoiDigits rest 0
  | _ => atoiDigits cs 0

/-- Outcome of one `voise_change` call: the (possibly) updated engine
data, the C return value, and whether the unknown-attribute warning was
logged. -/
structure ChangeResult where
  data : Option VoiseInfo
  retval : Int
  unknownWarned : Bool
deriving DecidableEq, Repr

/-- Helper mirroring `__voise_set_verbose` / `__voise_set_initsilence` /
`__voise_set_maxsilence` / `__voise_set_abstimeout`: write one integer
field when `speech->data` is non-null, else return `-1`. -/
def setIntField (data : Option VoiseInfo) (f : VoiseInfo → Int → VoiseInfo)
    (v : Int) : Option VoiseInfo × Int :=
  match data with
  | none => (none, -1)
  | some info => (some (f info v), 0)

/-- `voise_change` (`res_speech_voise.c:930-982`) on a non-null `speech`:
a `strcmp` cascade over the attribute name; each recognised branch calls
its setter (folding a `-1` setter result into the return value), and the
fall-through branch only logs the unknown-attribute warning. -/
def voise_change (data : Option VoiseInfo) (name value : String) :
    ChangeResult :=
  if name = "verbose" then
    let r := setIntField data (fun i v => { i with verbose := v }) (atoi value)
    { data := r.1, retval := 0, unknownWarned := false }
  else if name = "language" then
    let r := __voise_set_lang data (strBytes value)
    { data := r.1, retval := if r.2 < 0 then -1 else 0, unknownWarned := false }
  else if name = "lang" then
    let r := __voise_set_lang data (strBytes value)
    { data := r.1, retval := if r.2 < 0 then -1 else 0, unknownWarned := false }
  else if name = "asr_engine" then
    let r := __voise_set_asr_engine data (strBytes value)
    { data := r.1, retval := if r.2 < 0 then -1 else 0, unknownWarned := false }
  else if name = "initsil" then
    let r := setIntField data (fun i v => { i with initsil := v }) (atoi value)
    { data := r.1, retval := if r.2 < 0 then -1 else 0, unknownWarned := false }
  else if name = "maxsil" then
    let r := setIntField data (fun i v => { i with maxsil := v }) (atoi value)
    { data := r.1, retval := if r.2 < 0 then -1 else 0, unknownWarned := false }
  else if name = "abs_timeout" then
    let r := setIntField data (fun i v => { i with abs_timeout := v }) (atoi value)
    { data := r.1, retval := if r.2 < 0 then -1 else 0, unknownWarned := false }
  else
    { data := data, retval := 0, unknownWarned := true }

/-- Spec-modelled comparison definition for the score formula, following
the spec's words: round(confidence × probability × 100) clamped into
[0, 100]. -/
def specRoundClampScore (conf prob : ℚ) : Int :=
  max 0 (min 100 (round (conf * prob * 100)))

/-- DSP and clock inputs of one frame delivery. -/
structure FrameIn where
  silence : Bool
  totalsil : Int
  ctime : Int
deriving DecidableEq, Repr

/-- One `voise_write` call along a trace, with the remote stop and push
calls succeeding. -/
def writeStep (info : VoiseInfo) (f : FrameIn) : WriteResult :=
  voise_write info f.silence f.totalsil f.ctime true true

/-- The detection states after each frame of a fed sequence. -/
def runWrite (info : VoiseInfo) : List FrameIn → List VoiseInfo
  | [] => []
  | f :: fs =>
    let info' := (writeStep info f).info
    info' :: runWrite info' fs

/-- Number of false-to-true transitions along a boolean trace whose value
before the first element is `prev`. -/
def flipCount : Bool → List Bool → Nat
  | _, [] => 0
  | prev, b :: bs => (if prev = false ∧ b = true then 1 else 0) + flipCount b bs

/-- Concrete `voise_speech_info` builder for closed evaluations: the byte
buffers start zeroed at their source capacities (10/10/1000). -/
def mkInfo (isil msil atm : Int) (hs : Bool) (nf st : Int) : VoiseInfo :=
  { verbose := 0, lang := List.replicate 10 0,
    asr_engine := List.replicate 10 0,
    model_name := List.replicate 1000 0, initsil := isil, maxsil := msil,
    abs_timeout := atm, heardspeech := hs, noiseframes := nf,
    start_time := st }

/-- A concrete finalized remote response. -/
def sampleResp : VoiseResponse :=
  { result_code := 200, utterance := "sim", intent := "confirm",
    confidence := 1, probability := 1 }

/-- A response whose score fraction is exactly one half:
confidence × probability × 100 = 87.5. -/
def respHalf : VoiseResponse :=
  { result_code := 200, utterance := "sim", intent := "confirm",
    confidence := 1, probability := 7 / 8 }

/-- A response whose raw score product exceeds 100. -/
def respOver : VoiseResponse :=
  { result_code := 200, utterance := "sim", intent := "confirm",
    confidence := 2, probability := 1 }

/-- A concrete voiced frame. -/
def voicedFrame : FrameIn :=
  { silence := false, totalsil := 0, ctime := 0 }

/-- A concrete silent frame with no accumulated silence. -/
def silentFrame : FrameIn :=
  { silence := true, totalsil := 0, ctime := 0 }

/-- The language bytes of the string "pt". -/
def ptBytes : List Nat := [112, 116]

theorem pushOutcome_info (info : VoiseInfo) (a : WriteAction) (p : Bool) :
    (pushOutcome info a p).info = info := by
  unfold pushOutcome; split_ifs <;> rfl

theorem pushOutcome_action (info : VoiseInfo) (a : WriteAction) (p : Bool) :
    (pushOutcome info a p).action = a := by
  unfold pushOutcome; split_ifs <;> rfl

theorem pushOutcome_pushed (info : VoiseInfo) (a : WriteAction) (p : Bool) :
    (pushOutcome info a p).pushed = true := by
  unfold pushOutcome; split_ifs <;> rfl

theorem finalizeOutcome_info (info : VoiseInfo) (a : WriteAction) (so : Bool) :
    (finalizeOutcome info a so).info = info := by
  unfold finalizeOutcome; split_ifs <;> rfl

theorem finalizeOutcome_action (info : VoiseInfo) (a : WriteAction) (so : Bool) :
    (finalizeOutcome info a so).action = a := by
  unfold finalizeOutcome; split_ifs <;> rfl

theorem finalizeOutcome_pushed (info : VoiseInfo) (a : WriteAction) (so : Bool) :
    (finalizeOutcome info a so).pushed = false := by
  unfold finalizeOutcome; split_ifs <;> rfl

theorem heardspeech_mono (info : VoiseInfo) (s : Bool) (t c : Int)
    (so po : Bool) (h : info.heardspeech = true) :
    (voise_write info s t c so po).info.heardspeech = true := by
  unfold voise_write
  split_ifs <;>
    simp_all [pushOutcome_info, finalizeOutcome_info]

theorem runWrite_all_true (fs : List FrameIn) (info : VoiseInfo)
    (h : info.heardspeech = true) :
    ∀ i ∈ runWrite info fs, i.heardspeech = true := by
  induction fs generalizing info with
  | nil => simp [runWrite]
  | cons f fs ih =>
    intro i hi
    have hstep : (writeStep info f).info.heardspeech = true :=
      heardspeech_mono info f.silence f.totalsil f.ctime true true h
    simp only [runWrite, List.mem_cons] at hi
    rcases hi with hi | hi
    · rw [hi]; exact hstep
    · exact ih _ hstep i hi

theorem flipCount_all_true (l : List Bool) (h : ∀ b ∈ l, b = true) :
    flipCount true l = 0 := by
  induction l with
  | nil => rfl
  | cons b bs ih =>
    have hb : b = true := h b (List.mem_cons_self b bs)
    subst hb
    have hrest : flipCount true bs = 0 :=
      ih fun x hx => h x (List.mem_cons_of_mem _ hx)
    simp [flipCount, hrest]

theorem flipCount_le_one (fs : List FrameIn) (info : VoiseInfo) :
    flipCount info.heardspeech
      ((runWrite info fs).map VoiseInfo.heardspeech) ≤ 1 := by
  induction fs generalizing info with
  | nil => simp [runWrite, flipCount]
  | cons f fs ih =>
    simp only [runWrite, List.map_cons, flipCount]
    rcases hprev : info.heardspeech with _ | _
    · rcases hnext : (writeStep info f).info.heardspeech with _ | _
      · have := ih ((writeStep info f).info)
        rw [hnext] at this
        simpa [hnext] using this
      · have hall : ∀ i ∈ runWrite (writeStep info f).info fs,
            i.heardspeech = true := runWrite_all_true fs _ hnext
        have hz : flipCount true
            ((runWrite (writeStep info f).info fs).map VoiseInfo.heardspeech)
            = 0 := by
          refine flipCount_all_true _ ?_
          intro b hb
          rcases List.mem_map.mp hb with ⟨i, hi, rfl⟩
          exact hall i hi
        simp [hnext, hz]
    · have hstep : (writeStep info f).info.heardspeech = true :=
        heardspeech_mono info f.silence f.totalsil f.ctime true true hprev
      have hall : ∀ i ∈ runWrite (writeStep info f).info fs,
          i.heardspeech = true := runWrite_all_true fs _ hstep
      have hz : flipCount true
          ((runWrite (writeStep info f).info fs).map VoiseInfo.heardspeech)
          = 0 := by
        refine flipCount_all_true _ ?_
        intro b hb
        rcases List.mem_map.mp hb with ⟨i, hi, rfl⟩
        exact hall i hi
      simp [hstep, hz]

/-- Claim C1 counterexample.  With the absolute timeout enabled and long
expired (abs_timeout = 1 s, 10 s elapsed), a pre-onset voiced frame is
handled by the speech-onset branch and pushed to the remote session with
no state change — no Finalizing at all — and a post-onset silent frame
meeting the trailing-silence condition is finalized by the
trailing-silence branch, not by the absolute-timeout action. -/
theorem C1_counterexample :
    (voise_write (mkInfo 5000 1000 1 false 0 0) false 0 10 true true).action
        = WriteAction.onset ∧
    (voise_write (mkInfo 5000 1000 1 false 0 0) false 0 10 true true).pushed
        = true ∧
    (voise_write (mkInfo 5000 1000 1 false 0 0) false 0 10 true true).state
        = none ∧
    (voise_write (mkInfo 5000 1000 1 true 0 0) true 1500 10 true true).action
        = WriteAction.finalizeMaxSilence := by
  refine ⟨?_, ?_, ?_, ?_⟩ <;> decide

/-- Claim C1, amended.  The absolute timeout sits last but one in the
`voise_write` else-if chain: when it is enabled and expired, it triggers
Finalizing only on frames on which none of the speech-onset,
initial-silence, and trailing-silence guards hold; on such a frame the
absolute-timeout branch finalizes and the frame is not pushed. -/
theorem C1_amended (info : VoiseInfo) (silence : Bool) (totalsil ct : Int)
    (stopOk pushOk : Bool)
    (habs : 0 < info.abs_timeout ∧
      info.abs_timeout ≤ ct - info.start_time)
    (ha : ¬(info.heardspeech = false ∧ silence = false))
    (hb : ¬(info.heardspeech = false ∧ silence = true ∧
        0 ≤ info.initsil ∧ info.initsil ≤ totalsil))
    (hc : ¬(info.heardspeech = true ∧ silence = true ∧
        0 ≤ info.maxsil ∧ info.maxsil ≤ totalsil)) :
    (voise_write info silence totalsil ct stopOk pushOk).action
        = WriteAction.finalizeAbsTimeout ∧
    (voise_write info silence totalsil ct stopOk pushOk).pushed = false := by
  unfold voise_write
  rw [if_neg ha, if_neg hb, if_neg hc, if_pos habs]
  exact ⟨finalizeOutcome_action _ _ _, finalizeOutcome_pushed _ _ _⟩

/-- Witness for C1_amended: a post-onset voiced frame 10 s into an
attempt with abs_timeout = 1 s finalizes through the absolute-timeout
branch. -/
theorem C1_witness :
    (voise_write (mkInfo 5000 1000 1 true 0 0) false 0 10 true true).action
        = WriteAction.finalizeAbsTimeout ∧
    (voise_write (mkInfo 5000 1000 1 true 0 0) false 0 10 true true).pushed
        = false :=
  C1_amended (mkInfo 5000 1000 1 true 0 0) false 0 10 true true
    (by decide) (by decide) (by decide) (by decide)

/-- Claim C2 counterexample.  A threshold of 0 does not disable the
silence timeouts: with initsil = 0 the very first pre-onset silent frame
finalizes through the initial-silence branch, and with maxsil = 0 a
post-onset silent frame finalizes through the trailing-silence branch. -/
theorem C2_counterexample :
    (voise_write (mkInfo 0 1000 0 false 0 0) true 0 0 true true).action
        = WriteAction.finalizeInitSilence ∧
    (voise_write (mkInfo 5000 0 0 true 0 0) true 0 0 true true).action
        = WriteAction.finalizeMaxSilence := by
  refine ⟨?_, ?_⟩ <;> decide

/-- Claim C2, amended.  A strictly negative initsil disables the
initial-silence timeout, a strictly negative maxsil disables the
trailing-silence timeout, and abs_timeout ≤ 0 disables the absolute
timeout; a value of 0 for initsil or maxsil leaves that check enabled
(it then fires on the first qualifying silent frame). -/
theorem C2_amended (info : VoiseInfo) (silence : Bool) (totalsil ct : Int)
    (stopOk pushOk : Bool) :
    (info.initsil < 0 →
      (voise_write info silence totalsil ct stopOk pushOk).action
        ≠ WriteAction.finalizeInitSilence) ∧
    (info.maxsil < 0 →
      (voise_write info silence totalsil ct stopOk pushOk).action
        ≠ WriteAction.finalizeMaxSilence) ∧
    (info.abs_timeout ≤ 0 →
      (voise_write info silence totalsil ct stopOk pushOk).action
        ≠ WriteAction.finalizeAbsTimeout) := by
  unfold voise_write
  refine ⟨?_, ?_, ?_⟩ <;> intro h <;> split_ifs with h1 h2 h3 h4 h5 <;>
    simp_all [pushOutcome_action, finalizeOutcome_action] <;> omega

/-- Witness for C2_amended: with initsil = -1, maxsil = -1 and
abs_timeout = 0, a long-silent frame deep into the attempt triggers none
of the three finalize actions. -/
theorem C2_witness :
    (voise_write (mkInfo (-1) (-1) 0 false 0 0) true 100 50 true true).action
        ≠ WriteAction.finalizeInitSilence ∧
    (voise_write (mkInfo (-1) (-1) 0 false 0 0) true 100 50 true true).action
        ≠ WriteAction.finalizeMaxSilence ∧
    (voise_write (mkInfo (-1) (-1) 0 false 0 0) true 100 50 true true).action
        ≠ WriteAction.finalizeAbsTimeout :=
  ⟨(C2_amended (mkInfo (-1) (-1) 0 false 0 0) true 100 50 true true).1
      (by decide),
   (C2_amended (mkInfo (-1) (-1) 0 false 0 0) true 100 50 true true).2.1
      (by decide),
   (C2_amended (mkInfo (-1) (-1) 0 false 0 0) true 100 50 true true).2.2
      (by decide)⟩

/-- Claim C3 counterexample.  A single push failure is fatal: on a
post-onset voiced frame whose streaming-data call fails, `voise_write`
returns -1 and moves the speech state to NOT_READY at once — there is no
consecutive-failure tolerance. -/
theorem C3_counterexample :
    (voise_write (mkInfo 5000 1000 15 true 0 0) false 0 0 true false).retval
        = -1 ∧
    (voise_write (mkInfo 5000 1000 15 true 0 0) false 0 0 true false).state
        = some AstSpeechState.notReady := by
  refine ⟨?_, ?_⟩ <;> decide

/-- Claim C3, amended.  Whenever a frame reaches the streaming push and
the push fails, `voise_write` logs the failure, returns -1, and sets the
speech state to NOT_READY — the first push failure already ends the
attempt. -/
theorem C3_amended (info : VoiseInfo) (silence : Bool) (totalsil ct : Int)
    (stopOk : Bool)
    (h : (voise_write info silence totalsil ct stopOk false).pushed = true) :
    (voise_write info silence totalsil ct stopOk false).retval = -1 ∧
    (voise_write info silence totalsil ct stopOk false).state
        = some AstSpeechState.notReady := by
  unfold voise_write finalizeOutcome pushOutcome at h ⊢
  split_ifs at h ⊢ <;> simp_all

/-- Witness for C3_amended: the post-onset voiced frame of the
counterexample, three seconds into the attempt, reaches the push. -/
theorem C3_witness :
    (voise_write (mkInfo 5000 1000 15 true 0 0) false 0 3 true false).retval
        = -1 ∧
    (voise_write (mkInfo 5000 1000 15 true 0 0) false 0 3 true false).state
        = some AstSpeechState.notReady :=
  C3_amended (mkInfo 5000 1000 15 true 0 0) false 0 3 true (by decide)

/-- Claim C4 counterexample.  Called while the attempt is mid-stream
(speech state READY, detection state showing heard speech), `voise_start`
is not rejected: it returns 0, resets the detection fields, and opens a
new streaming session. -/
theorem C4_counterexample :
    (voise_start AstSpeechState.ready (mkInfo 5000 1000 15 true 3 7)
        true 0 201 42).retval = 0 ∧
    (voise_start AstSpeechState.ready (mkInfo 5000 1000 15 true 3 7)
        true 0 201 42).opened = true ∧
    (voise_start AstSpeechState.ready (mkInfo 5000 1000 15 true 3 7)
        true 0 201 42).info.heardspeech = false ∧
    (voise_start AstSpeechState.ready (mkInfo 5000 1000 15 true 3 7)
        true 0 201 42).info.noiseframes = 0 ∧
    (voise_start AstSpeechState.ready (mkInfo 5000 1000 15 true 3 7)
        true 0 201 42).state = some AstSpeechState.ready := by
  refine ⟨?_, ?_, ?_, ?_, ?_⟩ <;> decide

/-- Claim C4, amended.  `voise_start` never consults the current speech
state: its outcome is identical from every phase, and with a successful
DSP allocation, remote open, and result code 201 it resets the detection
state, opens a new session, returns 0, and moves to READY — a repeated
`start()` without an intervening Done or Error is not rejected. -/
theorem C4_amended (s s' : AstSpeechState) (info : VoiseInfo) (dspOk : Bool)
    (r rc now : Int) :
    voise_start s info dspOk r rc now = voise_start s' info dspOk r rc now ∧
    (voise_start s info true 0 201 now).retval = 0 ∧
    (voise_start s info true 0 201 now).opened = true ∧
    (voise_start s info true 0 201 now).info.heardspeech = false ∧
    (voise_start s info true 0 201 now).info.noiseframes = 0 ∧
    (voise_start s info true 0 201 now).state
        = some AstSpeechState.ready := by
  refine ⟨rfl, ?_, ?_, ?_, ?_, ?_⟩ <;>
    simp [voise_start, reinit_speech_controls]

/-- Claim C5, code-bug evidence.  With `VOISE_MAX_NBEST = 1`, the result
builder produces a single hypothesis carrying the response text and tag
verbatim when n-best is off — but when the caller requests n-best, the
loop links one extra freshly zeroed node after the filled one, so the
stored list has length 2, its second node empty (`NULL` text and tag). -/
theorem C5_nbest_extra_node :
    voise_set_result sampleResp false = [filledResult sampleResp] ∧
    (voise_set_result sampleResp false).length = 1 ∧
    voise_set_result sampleResp true
        = [filledResult sampleResp, emptyResult] ∧
    (voise_set_result sampleResp true).length = 2 ∧
    (filledResult sampleResp).text = some "sim" ∧
    (filledResult sampleResp).grammar = some "confirm" := by
  refine ⟨rfl, rfl, rfl, rfl, rfl, rfl⟩

/-- Claim C7 counterexample.  For confidence 1 and probability 7/8 the
product is 87.5: the builder stores the C-cast (truncated) score 87,
while the claimed round-and-clamp formula yields 88. -/
theorem C7_counterexample :
    (voise_set_result respHalf false).head? = some (filledResult respHalf) ∧
    (filledResult respHalf).score = 87 ∧
    specRoundClampScore respHalf.confidence respHalf.probability = 88 ∧
    (filledResult respHalf).score
        ≠ specRoundClampScore respHalf.confidence respHalf.probability := by
  refine ⟨rfl, ?_, ?_, ?_⟩ <;>
    norm_num [filledResult, respHalf, ratTruncToZero, specRoundClampScore,
      round_eq]

/-- Claim C7, amended.  The primary hypothesis score is the C integer
cast — truncation toward zero — of confidence × probability × 100, with
no rounding and no clamping: a product of 2 × 1 × 100 is stored as 200,
above the claimed [0, 100] range. -/
theorem C7_amended (resp : VoiseResponse) :
    (voise_set_result resp false).head? = some (filledResult resp) ∧
    (filledResult resp).score
        = ratTruncToZero (resp.confidence * resp.probability * 100) ∧
    100 < (filledResult respOver).score := by
  refine ⟨rfl, rfl, ?_⟩
  norm_num [filledResult, respOver, ratTruncToZero]

/-- Claim C6.  Along any attempt (detection state freshly reset by
`__reinit_speech_controls`, then any frame sequence), `heardspeech`
flips from false to true at most once; before onset, a processed frame
sets `heardspeech` exactly when it is voiced and pushes the consecutive
voiced-frame counter past `VOISE_NOISE_FRAMES`; and a pre-onset silent
frame whose branch is not a finalize action leaves the counter at 0. -/
theorem C6_heardspeech_once (info0 info : VoiseInfo) (fs : List FrameIn)
    (f : FrameIn) :
    flipCount (reinit_speech_controls info0).heardspeech
      ((runWrite (reinit_speech_controls info0) fs).map
        VoiseInfo.heardspeech) ≤ 1 ∧
    (info.heardspeech = false →
      ((writeStep info f).info.heardspeech = true ↔
        f.silence = false ∧ VOISE_NOISE_FRAMES < info.noiseframes + 1)) ∧
    (info.heardspeech = false → f.silence = true →
      isFinalizeAction (writeStep info f).action = false →
      (writeStep info f).info.noiseframes = 0) := by
  refine ⟨flipCount_le_one fs _, ?_, ?_⟩
  · intro h
    unfold writeStep voise_write
    split_ifs with h1 h2 h3 h4 <;>
      simp_all [pushOutcome_info, finalizeOutcome_info] <;>
      split_ifs <;> simp_all
  · intro h hsil hact
    unfold writeStep voise_write at hact ⊢
    split_ifs at hact ⊢ with h1 h2 h3 h4 h5 <;>
      simp_all [pushOutcome_info, pushOutcome_action, finalizeOutcome_action,
        isFinalizeAction]

/-- Witness for C6_heardspeech_once: a concrete two-frame attempt stays
within one flip; from a pre-onset state with one voiced frame counted, a
voiced frame confirms onset, and a silent frame that only resets the
counter leaves it at 0. -/
theorem C6_witness :
    flipCount (reinit_speech_controls (mkInfo 5000 1000 15 true 3 7)).heardspeech
      ((runWrite (reinit_speech_controls (mkInfo 5000 1000 15 true 3 7))
        [voicedFrame, voicedFrame]).map VoiseInfo.heardspeech) ≤ 1 ∧
    (writeStep (mkInfo 5000 1000 15 false 1 0) voicedFrame).info.heardspeech
        = true ∧
    (writeStep (mkInfo 5000 1000 15 false 1 0) silentFrame).info.noiseframes
        = 0 :=
  ⟨(C6_heardspeech_once (mkInfo 5000 1000 15 true 3 7)
      (mkInfo 5000 1000 15 false 1 0) [voicedFrame, voicedFrame]
      voicedFrame).1,
   ((C6_heardspeech_once (mkInfo 5000 1000 15 true 3 7)
      (mkInfo 5000 1000 15 false 1 0) [voicedFrame, voicedFrame]
      voicedFrame).2.1 (by decide)).mpr (by decide),
   (C6_heardspeech_once (mkInfo 5000 1000 15 true 3 7)
      (mkInfo 5000 1000 15 false 1 0) [voicedFrame, voicedFrame]
      silentFrame).2.2 (by decide) (by decide) (by decide)⟩

/-- Claim C8.  For every attribute name outside the recognized set,
`voise_change` logs the unknown-attribute warning, returns 0, and leaves
the engine data untouched. -/
theorem C8_unknown_attribute (data : Option VoiseInfo) (name value : String)
    (h : name ∉ ["verbose", "language", "lang", "asr_engine", "initsil",
      "maxsil", "abs_timeout"]) :
    voise_change data name value =
      { data := data, retval := 0, unknownWarned := true } := by
  simp only [List.mem_cons, List.not_mem_nil, or_false, not_or] at h
  obtain ⟨h1, h2, h3, h4, h5, h6, h7⟩ := h
  unfold voise_change
  rw [if_neg h1, if_neg h2, if_neg h3, if_neg h4, if_neg h5, if_neg h6,
    if_neg h7]

/-- Witness for C8_unknown_attribute at the unrecognized name "model". -/
theorem C8_witness :
    voise_change (some (mkInfo 5000 1000 15 false 0 0)) "model" "x" =
      { data := some (mkInfo 5000 1000 15 false 0 0), retval := 0,
        unknownWarned := true } :=
  C8_unknown_attribute (some (mkInfo 5000 1000 15 false 0 0)) "model" "x"
    (by decide)

/-- Claim C9.  A frame is forwarded to the remote session exactly when
the branch that handled it is not a finalize action: the onset,
silence-reset, and fall-through branches all reach the push, and the
three finalize branches return before it. -/
theorem C9_push_iff_not_finalize (info : VoiseInfo) (silence : Bool)
    (totalsil ct : Int) (stopOk pushOk : Bool) :
    (voise_write info silence totalsil ct stopOk pushOk).pushed
      = !isFinalizeAction
          (voise_write info silence totalsil ct stopOk pushOk).action := by
  unfold voise_write
  split_ifs <;>
    simp [pushOutcome_action, pushOutcome_pushed, finalizeOutcome_action,
      finalizeOutcome_pushed, isFinalizeAction]

theorem cstrOf_append_zero (s r : List Nat) (h : ∀ b ∈ s, b ≠ 0) :
    cstrOf (s ++ 0 :: r) = s := by
  unfold cstrOf
  induction s with
  | nil =>
    rw [List.nil_append, List.takeWhile_cons]
    simp
  | cons a as ih =>
    have ha : a ≠ 0 := h a (List.mem_cons_self a as)
    have hrest : (as ++ 0 :: r).takeWhile (fun b => decide (b ≠ 0)) = as :=
      ih fun b hb => h b (List.mem_cons_of_mem _ hb)
    rw [List.cons_append,
      List.takeWhile_cons_of_pos (by simpa using ha), hrest]

/-- Claim C10.  For strings shorter than the destination buffers (10
bytes for lang and asr_engine, 1000 for model_name) on a speech object
with non-null attached data, each setter returns 0 and the matching
getter reads back exactly the string that was set. -/
theorem C10_set_get_roundtrip (info : VoiseInfo) (s t : List Nat)
    (hs10 : s.length < 10) (hsnz : ∀ b ∈ s, b ≠ 0)
    (ht1000 : t.length < 1000) (htnz : ∀ b ∈ t, b ≠ 0) :
    (__voise_set_lang (some info) s).2 = 0 ∧
    __voise_get_lang (__voise_set_lang (some info) s).1 = some s ∧
    (__voise_set_asr_engine (some info) s).2 = 0 ∧
    __voise_get_asr_engine (__voise_set_asr_engine (some info) s).1
        = some s ∧
    (__voise_set_model (some info) t).2 = 0 ∧
    __voise_get_model (__voise_set_model (some info) t).1 = some t := by
  have hws : ∀ dst : List Nat, cstrOf (writeCStr dst s) = s := fun dst => by
    rw [writeCStr]; exact cstrOf_append_zero s _ hsnz
  have hwt : ∀ dst : List Nat, cstrOf (writeCStr dst t) = t := fun dst => by
    rw [writeCStr]; exact cstrOf_append_zero t _ htnz
  refine ⟨rfl, ?_, rfl, ?_, rfl, ?_⟩ <;>
    simp [__voise_set_lang, __voise_get_lang, __voise_set_asr_engine,
      __voise_get_asr_engine, __voise_set_model, __voise_get_model, hws, hwt]

/-- Witness for C10_set_get_roundtrip at the two-byte string "pt". -/
theorem C10_witness :
    (__voise_set_lang (some (mkInfo 5000 1000 15 false 0 0)) ptBytes).2
        = 0 ∧
    __voise_get_lang
        (__voise_set_lang (some (mkInfo 5000 1000 15 false 0 0)) ptBytes).1
        = some ptBytes ∧
    (__voise_set_asr_engine (some (mkInfo 5000 1000 15 false 0 0))
        ptBytes).2 = 0 ∧
    __voise_get_asr_engine
        (__voise_set_asr_engine (some (mkInfo 5000 1000 15 false 0 0))
          ptBytes).1 = some ptBytes ∧
    (__voise_set_model (some (mkInfo 5000 1000 15 false 0 0)) ptBytes).2
        = 0 ∧
    __voise_get_model
        (__voise_set_model (some (mkInfo 5000 1000 15 false 0 0))
          ptBytes).1 = some ptBytes :=
  C10_set_get_roundtrip (mkInfo 5000 1000 15 false 0 0) ptBytes ptBytes
    (by decide) (by decide) (by decide) (by decide)

end Voise
